import Mathlib

/-!
Verification of the LED controller core
(`src/server/mainServer/LightController/LightHandler.ts`).

The handler `setupLightHandler` is a closure over mutable state:
the current mode `lightMode`, the mode `lastMode`, the target color `RGB`,
the last-pushed color `lastRGB`, the door fade interval handle
`doorFrameLoop`, the lodash-debounced door fade starter `de`, and the tick
scheduler timeout `timeout`.  We embed that state as a structure and each
handler as a pure function from state to state plus a list of emitted
effects (device writes, websocket broadcasts, settings persistence, log
lines).  Timers are embedded as explicit events of a trace semantics:
the debounce firing, a fade-interval tick and a scheduler tick are events
delivered to a step function, which is faithful to the single-threaded
run-to-completion execution model of the source.
-/

namespace LightHandler

/-- The `ControllerMode` union type.  Modelled from the spec: the type lives
in `shared/interfaces.ts`, which is not part of the provided sources; the
spec fixes it as the closed eight-value enumeration
`AutoPilot, Manual, Pattern, Audio, AudioRaw, ManualForce, ManualLocked,
Door`. -/
inductive Mode where
  | autoPilot
  | manual
  | pattern
  | audioMode
  | audioRaw
  | manualForce
  | manualLocked
  | door
deriving DecidableEq, Repr

/-- An RGB triple as stored in the handler (`RGB` / `lastRGB` objects with
fields `r`, `g`, `b`). -/
structure RGBc where
  r : Nat
  g : Nat
  b : Nat
deriving DecidableEq, Repr

/-- Externally observable actions of the handler: device writes
(`light.setRGB`, `light.setIfPossible`), websocket broadcasts
(`mode-update`, `rgb-update`), the asynchronous `saveSettings()` call and
the `Logger.debug("Server is lagging!")` line. -/
inductive Effect where
  | setRGB (r g b : Nat)
  | setIfPossible (r g b : Nat)
  | broadcastMode (m : Mode)
  | broadcastRGB (c : RGBc)
  | save
  | log
deriving DecidableEq, Repr

/-- The closure state of `setupLightHandler`:
`lightMode`, `lastMode`, the target `RGB`, the last pushed `lastRGB`,
the fade interval `doorFrameLoop` (carrying the interval closure's `r g b`
counters when running), whether the debounced `de` has a pending timer,
and whether the tick scheduler `timeout` is pending. -/
structure LHState where
  lightMode : Mode
  lastMode : Mode
  rgb : RGBc
  lastRGB : RGBc
  doorFrameLoop : Option RGBc
  dePending : Bool
  tickTimeout : Bool
deriving DecidableEq, Repr

/-- Nominal frame interval: `SERVER_FPS = SECOND * 0.05` with
`SECOND = 1000` ms, i.e. 50 ms. -/
def SERVER_FPS : Nat := 50

/-- The strings accepted by the `switch (mode)` in `setMode`
(`"Door"` is absent: it falls through to the `default` branch). -/
def validModeStrings : List String :=
  ["AutoPilot", "Manual", "Pattern", "Audio", "AudioRaw", "ManualForce", "ManualLocked"]

/-- The mode value named by each case label of `setMode`'s switch.
Returns `none` exactly on the `default` branch (any string other than the
seven accepted case labels, including `"Door"`). -/
def parseMode (m : String) : Option Mode :=
  if m = "AutoPilot" then some .autoPilot
  else if m = "Manual" then some .manual
  else if m = "Pattern" then some .pattern
  else if m = "Audio" then some .audioMode
  else if m = "AudioRaw" then some .audioRaw
  else if m = "ManualForce" then some .manualForce
  else if m = "ManualLocked" then some .manualLocked
  else none

/-- The wire name of each `Mode` value (its string literal in the union
type `ControllerMode`). -/
def modeToString : Mode → String
  | .autoPilot => "AutoPilot"
  | .manual => "Manual"
  | .pattern => "Pattern"
  | .audioMode => "Audio"
  | .audioRaw => "AudioRaw"
  | .manualForce => "ManualForce"
  | .manualLocked => "ManualLocked"
  | .door => "Door"

/-- `setMode(mode)`.  On an accepted mode: computes
`diff = lightMode !== mode`, then `lastMode = settings.controllerMode =
lightMode = mode`, broadcasts `mode-update`, clears `doorFrameLoop` if set,
cancels the debounce (`de.cancel()`), and awaits `saveSettings()` only when
`diff`.  On any other string it throws
`` Error(`Mode ${mode} does not exist!`) `` before touching any state. -/
def setModeStr (m : String) (s : LHState) :
    Except String (LHState × List Effect) :=
  match parseMode m with
  | some md =>
      let diff : Bool := s.lightMode ≠ md
      let s1 : LHState :=
        { s with lastMode := md, lightMode := md,
                 doorFrameLoop := none, dePending := false }
      .ok (s1, Effect.broadcastMode md :: (if diff then [Effect.save] else []))
  | none => .error ("Mode " ++ m ++ " does not exist!")

/-- `updateModeAndLight(rgb?)`: broadcasts `mode-update` with the current
mode and `rgb-update` with the argument (or the target `RGB`). -/
def updateModeAndLight (s : LHState) (c : Option RGBc) : List Effect :=
  [Effect.broadcastMode s.lightMode, Effect.broadcastRGB (c.getD s.rgb)]

/-- The `light.on('door', ...)` handler.  If `lightMode === "ManualLocked"`
it returns at once.  Otherwise it clears `doorFrameLoop`; on `level`
(door-open) it cancels the debounce, sets `lightMode = 'Door'` and pushes
`setRGB(255,255,255)`; on door-close it (re)starts the debounce `de()`.
Both branches end with `updateModeAndLight({r:255,g:255,b:255})`. -/
def doorEvent (level : Bool) (s : LHState) : LHState × List Effect :=
  if s.lightMode = .manualLocked then (s, [])
  else
    let s1 : LHState := { s with doorFrameLoop := none }
    if level then
      let s2 : LHState := { s1 with dePending := false, lightMode := .door }
      (s2, Effect.setRGB 255 255 255 :: updateModeAndLight s2 (some ⟨255, 255, 255⟩))
    else
      let s2 : LHState := { s1 with dePending := true }
      (s2, updateModeAndLight s2 (some ⟨255, 255, 255⟩))

/-- The debounced body of `de` firing (10 s after the last `de()` call
unless cancelled): clears any existing `doorFrameLoop`, sets the closure
counters `r = g = b = 255` and starts the 100 ms fade interval. -/
def deFireBody (s : LHState) : LHState × List Effect :=
  ({ s with dePending := false, doorFrameLoop := some ⟨255, 255, 255⟩ }, [])

/-- One tick of the fade interval started by `de` with counters `c`:
decrement each counter that is above its target channel, then test the
source's stop condition — literally
`r === RGB.r && b === RGB.b && b === RGB.b` (the green channel is never
compared, `b` is compared twice) — restoring `lightMode = lastMode` and
clearing the interval when it holds; finally `light.setRGB(r, g, b)` and
`updateModeAndLight({r: RGB.r, g: RGB.g, b: RGB.b})`. -/
def fadeStep (c : RGBc) (s : LHState) : LHState × List Effect :=
  let r := if c.r > s.rgb.r then c.r - 1 else c.r
  let g := if c.g > s.rgb.g then c.g - 1 else c.g
  let b := if c.b > s.rgb.b then c.b - 1 else c.b
  let done : Bool := r = s.rgb.r ∧ b = s.rgb.b ∧ b = s.rgb.b
  let s1 : LHState :=
    if done then { s with lightMode := s.lastMode, doorFrameLoop := none }
    else { s with doorFrameLoop := some ⟨r, g, b⟩ }
  (s1, Effect.setRGB r g b :: updateModeAndLight s1 (some ⟨s.rgb.r, s.rgb.g, s.rgb.b⟩))

/-- `isStateChanged()`.  `Audio`/`AudioRaw` always report a change; `Door`
never does; `AutoPilot` first copies the pattern generator's color
(parameter `pilot`, for `autoPilot.scheduler.state`) into the target `RGB`;
then every non-audio mode compares the target channelwise against
`lastRGB`, changed iff some channel differs.  Returns the flag together
with the (possibly mutated) state. -/
def isStateChanged (pilot : RGBc) (s : LHState) : Bool × LHState :=
  match s.lightMode with
  | .audioMode => (true, s)
  | .audioRaw => (true, s)
  | .door => (false, s)
  | .autoPilot =>
      let s1 : LHState := { s with rgb := pilot }
      (!(s1.rgb.r = s1.lastRGB.r ∧ s1.rgb.b = s1.lastRGB.b ∧ s1.rgb.g = s1.lastRGB.g), s1)
  | _ =>
      (!(s.rgb.r = s.lastRGB.r ∧ s.rgb.b = s.lastRGB.b ∧ s.rgb.g = s.lastRGB.g), s)

/-- `changeState()`.  In `Audio` mode it asks the device via
`setIfPossible` with the audio analyser's color (parameter `audioC`, with
`accept` the device's answer); on acceptance the target and `lastRGB` are
set to it and `rgb-update` is broadcast, on refusal nothing else happens.
In every other mode: `lastRGB` is set to the target, the target is pushed
with `setRGB`, and `rgb-update` is broadcast. -/
def changeState (audioC : RGBc) (accept : Bool) (s : LHState) :
    LHState × List Effect :=
  if s.lightMode = .audioMode then
    if accept then
      ({ s with rgb := audioC, lastRGB := audioC },
        [Effect.setIfPossible audioC.r audioC.g audioC.b, Effect.broadcastRGB audioC])
    else (s, [Effect.setIfPossible audioC.r audioC.g audioC.b])
  else
    ({ s with lastRGB := s.rgb },
      [Effect.setRGB s.rgb.r s.rgb.g s.rgb.b, Effect.broadcastRGB s.rgb])

/-- Result of one `tick()`: the new state, the emitted effects and the
delay passed to `setTimeout` for the next frame. -/
structure TickResult where
  state : LHState
  effects : List Effect
  nextDelay : Nat
deriving DecidableEq, Repr

/-- `tick()`.  Runs `isStateChanged()`; on a change runs `changeState()`.
Then with `diff = dateEnd - now` (parameter `elapsed`): if
`diff > SERVER_FPS` it logs "Server is lagging!" and reschedules with
delay 0; otherwise the delay is 0 in the audio modes and
`SERVER_FPS - diff` elsewhere.  Either way `timeout` is set again. -/
def tick (pilot audioC : RGBc) (accept : Bool) (elapsed : Nat)
    (s : LHState) : TickResult :=
  let ch := isStateChanged pilot s
  let cs := if ch.1 then changeState audioC accept ch.2 else (ch.2, [])
  if elapsed > SERVER_FPS then
    ⟨{ cs.1 with tickTimeout := true }, cs.2 ++ [Effect.log], 0⟩
  else
    ⟨{ cs.1 with tickTimeout := true }, cs.2,
      if cs.1.lightMode = .audioMode ∨ cs.1.lightMode = .audioRaw then 0
      else SERVER_FPS - elapsed⟩

/-- The introductory sequence of `onConnect`: red, green, blue, black, then
the current target color, each separated by a 500 ms sleep. -/
def introSeq (s : LHState) : List Effect :=
  [Effect.setRGB 255 0 0, Effect.setRGB 0 255 0, Effect.setRGB 0 0 255,
   Effect.setRGB 0 0 0, Effect.setRGB s.rgb.r s.rgb.g s.rgb.b]

/-- `onConnect()`: clears a pending tick timeout, plays the introductory
color sequence, and then calls `tick()` (the first tick is delivered as a
separate `Ev.tickEv` in the trace semantics). -/
def onConnect (s : LHState) : LHState × List Effect :=
  ({ s with tickTimeout := false }, introSeq s)

/-- The initial closure state: `lightMode = settings.controllerMode`
(parameter `m`), `lastMode = lightMode`, target `RGB = {r:0,g:0,b:0}`,
`lastRGB = {r:255,g:255,b:255}`, no timers pending. -/
def initState (m : Mode) : LHState :=
  ⟨m, m, ⟨0, 0, 0⟩, ⟨255, 255, 255⟩, none, false, false⟩

/-- Events delivered to the handler in the single-threaded trace
semantics: door sensor edges, the debounce timer firing, one fade-interval
tick, a `mode-set` request, an `rgb-set` request (with the requester's
client type), one scheduler tick (with the frame's external inputs and
measured elapsed time), device connect/disconnect, and the
`all-clients-disconnected` socket event. -/
inductive Ev where
  | doorEv (level : Bool)
  | deFire
  | fadeTick
  | setModeEv (m : String)
  | rgbSet (isClient : Bool) (red green blue : Nat)
  | tickEv (pilot audioC : RGBc) (accept : Bool) (elapsed : Nat)
  | connectEv
  | disconnectEv
  | allClientsDisc
deriving DecidableEq, Repr

/-- One event step.  A `deFire` with no pending debounce and a `fadeTick`
with no running interval are no-ops (the timer was cancelled).  `rgbSet`
calls `setMode("Manual")` for ordinary clients / `setMode("AudioRaw")` for
others and then stores the clamped channels.  `disconnectEv` mirrors the
`light.on('disconnect')` handler: it clears only `timeout`. -/
def step (e : Ev) (s : LHState) : LHState × List Effect :=
  match e with
  | .doorEv level => doorEvent level s
  | .deFire => if s.dePending then deFireBody s else (s, [])
  | .fadeTick =>
      match s.doorFrameLoop with
      | some c => fadeStep c s
      | none => (s, [])
  | .setModeEv m =>
      match setModeStr m s with
      | .ok r => r
      | .error _ => (s, [])
  | .rgbSet isClient red green blue =>
      match setModeStr (if isClient then "Manual" else "AudioRaw") s with
      | .ok (s1, effs) =>
          ({ s1 with rgb := ⟨min red 255, min green 255, min blue 255⟩ }, effs)
      | .error _ => (s, [])
  | .tickEv pilot audioC accept elapsed =>
      let t := tick pilot audioC accept elapsed s
      (t.state, t.effects)
  | .connectEv => onConnect s
  | .disconnectEv => ({ s with tickTimeout := false }, [])
  | .allClientsDisc =>
      if s.lightMode = .manual ∨ s.lightMode = .manualForce then
        match setModeStr "AutoPilot" s with
        | .ok r => r
        | .error _ => (s, [])
      else (s, [])

/-- Run a list of events, accumulating all emitted effects in order. -/
def runE (s : LHState) : List Ev → LHState × List Effect
  | [] => (s, [])
  | e :: evs =>
      let r1 := step e s
      let r2 := runE r1.1 evs
      (r2.1, r1.2 ++ r2.2)

/-- All states visited while running a list of events, the start state
included. -/
def statesOf (s : LHState) : List Ev → List LHState
  | [] => [s]
  | e :: evs => s :: statesOf (step e s).1 evs

/-- The device pushes (`setRGB` calls) among a list of effects, in order. -/
def setRGBCalls (effs : List Effect) : List (Nat × Nat × Nat) :=
  effs.filterMap fun e =>
    match e with
    | .setRGB r g b => some (r, g, b)
    | _ => none

/-- The state after a `setMode` call (the caller's state is unchanged when
the call throws). -/
def afterSetMode (m : String) (s : LHState) : LHState :=
  match setModeStr m s with
  | .ok r => r.1
  | .error _ => s

/-- The effects emitted by a `setMode` call (none when it throws). -/
def setModeEffs (m : String) (s : LHState) : List Effect :=
  match setModeStr m s with
  | .ok r => r.2
  | .error _ => []

/-- Final state after folding a list of events. -/
def runS (s : LHState) (evs : List Ev) : LHState :=
  evs.foldl (fun t e => (step e t).1) s

/-- Invariant between a door-close and the matching door-open: no fade
interval is running, and whenever the debounce is pending the mode is not
`ManualLocked` (so a later door-open is not ignored without the debounce
having been cancelled first). -/
def InvClosed (s : LHState) : Prop :=
  s.doorFrameLoop = none ∧ (s.dePending = true → s.lightMode ≠ Mode.manualLocked)

/-- Invariant after the door-open: no fade interval is running and no
debounce is pending, so no fade can ever start until another door-close. -/
def InvOpened (s : LHState) : Prop :=
  s.doorFrameLoop = none ∧ s.dePending = false

/-- A fresh-start state in mode `AutoPilot` (the constructor's state with
`settings.controllerMode = "AutoPilot"`). -/
def sAuto : LHState := initState .autoPilot

/-- A fresh-start state in mode `Manual`. -/
def sManual : LHState := initState .manual

/-- Mode `Manual` with target color `(10, 20, 30)` freshly set by a client
and last-pushed color still `(255, 255, 255)`. -/
def sManual10 : LHState :=
  ⟨.manual, .manual, ⟨10, 20, 30⟩, ⟨255, 255, 255⟩, none, false, true⟩

/-- State at the moment a door-close debounce is about to fire: mode is
`Door`, the pre-door mode (held in `lastMode`) is `Manual`, and the
pre-door target color is `(10, 0, 10)`. -/
def c1Start : LHState :=
  ⟨.door, .manual, ⟨10, 0, 10⟩, ⟨255, 255, 255⟩, none, true, false⟩

/-- The debounce fires and the fade interval then ticks 245 times. -/
def c1Run : LHState × List Effect :=
  runE c1Start (Ev.deFire :: List.replicate 245 Ev.fadeTick)

/-- State in the middle of a fade-back animation (mode `Door`, pre-door
mode `Manual`, fade counters at `(200, 200, 200)`, tick timeout pending). -/
def c4Start : LHState :=
  ⟨.door, .manual, ⟨0, 0, 0⟩, ⟨0, 0, 0⟩, some ⟨200, 200, 200⟩, false, true⟩

/-- State right after a door-close (mode `Door`, debounce pending, tick
timeout pending). -/
def c4Closed : LHState :=
  ⟨.door, .manual, ⟨0, 0, 0⟩, ⟨0, 0, 0⟩, none, true, true⟩

set_option maxRecDepth 16384 in
/-- C1 (code bug evidence): with pre-door target `(10, 0, 10)` and pre-door
mode `Manual`, the debounce fires and the fade interval runs to
completion after 245 steps (the interval is cleared and the mode is
restored to `Manual`), yet the last color pushed to the device is
`(10, 10, 10)`: the green channel ends 10 above its target because the
stop condition `r === RGB.r && b === RGB.b && b === RGB.b` never compares
the green channel. -/
theorem c1_fade_final_green_missed :
    c1Run.1.doorFrameLoop = none ∧
    c1Run.1.lightMode = Mode.manual ∧
    (setRGBCalls c1Run.2).getLast? = some (10, 10, 10) ∧
    c1Start.rgb = ⟨10, 0, 10⟩ := by
  refine ⟨by decide, by decide, by decide, by decide⟩

/-- C2 (counterexample): starting from current mode `AutoPilot`, the call
`setMode("Manual")` succeeds and afterwards `lastMode` is `Manual` — the
newly requested mode — not `AutoPilot`, the mode that was current
immediately before the call, contradicting the claim. -/
theorem c2_lastMode_counterexample :
    sAuto.lightMode = Mode.autoPilot ∧
    (afterSetMode "Manual" sAuto).lightMode = Mode.manual ∧
    (afterSetMode "Manual" sAuto).lastMode = Mode.manual ∧
    Mode.manual ≠ Mode.autoPilot := by
  refine ⟨rfl, by decide, by decide, by decide⟩

/-- C2 (amended): for every successful `setMode(m)` — `m` any defined mode
other than `Door` — the call sets both the current mode and the stored
`lastMode` to `m` itself (the assignment is
`lastMode = settings.controllerMode = lightMode = mode`); `lastMode` never
holds the pre-call mode.  In particular when `m` equals the current mode
the whole mode record is unchanged. -/
theorem c2_setMode_sets_lastMode_to_new (md : Mode) (s : LHState)
    (h : md ≠ Mode.door) :
    ∃ effs, setModeStr (modeToString md) s =
      .ok ({ s with lastMode := md, lightMode := md,
                    doorFrameLoop := none, dePending := false }, effs) := by
  cases md <;> first
    | exact absurd rfl h
    | exact ⟨_, rfl⟩

/-- C2 witness: concrete run of the amended theorem at `m = Manual` from
mode `AutoPilot`. -/
theorem c2_setMode_sets_lastMode_to_new_witness :
    Mode.manual ≠ Mode.door ∧
    ∃ effs, setModeStr (modeToString Mode.manual) sAuto =
      .ok ({ sAuto with lastMode := Mode.manual, lightMode := Mode.manual,
                        doorFrameLoop := none, dePending := false }, effs) :=
  ⟨by decide, c2_setMode_sets_lastMode_to_new Mode.manual sAuto (by decide)⟩

/-- C3 (counterexample): calling `setMode("Manual")` while the mode is
already `Manual` does not persist (`saveSettings` is skipped) but it does
broadcast `mode-update` — the broadcast is unconditional in the source —
contradicting the claim that no mode-change broadcast is emitted. -/
theorem c3_idempotent_still_broadcasts :
    sManual.lightMode = Mode.manual ∧
    Effect.broadcastMode Mode.manual ∈ setModeEffs "Manual" sManual ∧
    Effect.save ∉ setModeEffs "Manual" sManual := by
  refine ⟨rfl, by decide, by decide⟩

/-- C3 (amended): a `setMode(m)` with `m` equal to the current (non-`Door`)
mode performs no persistence, cancels the pending door debounce and any
running fade interval, leaves the color state and the mode record
unchanged in value, but still emits exactly one `mode-update` broadcast
carrying the unchanged mode. -/
theorem c3_idempotent_setMode (md : Mode) (s : LHState)
    (h : md ≠ Mode.door) (hcur : s.lightMode = md) :
    setModeStr (modeToString md) s =
      .ok ({ s with lastMode := md, lightMode := md,
                    doorFrameLoop := none, dePending := false },
           [Effect.broadcastMode md]) := by
  cases md
  case door => exact absurd rfl h
  all_goals
    cases s with
    | mk lm lastm r0 l0 dfl dep tt =>
      cases (show lm = _ from hcur)
      rfl

/-- C3 witness: concrete run of the amended theorem at `m = Manual` on a
state already in mode `Manual`. -/
theorem c3_idempotent_setMode_witness :
    Mode.manual ≠ Mode.door ∧ sManual.lightMode = Mode.manual ∧
    setModeStr (modeToString Mode.manual) sManual =
      .ok ({ sManual with lastMode := Mode.manual, lightMode := Mode.manual,
                          doorFrameLoop := none, dePending := false },
           [Effect.broadcastMode Mode.manual]) :=
  ⟨by decide, rfl, c3_idempotent_setMode Mode.manual sManual (by decide) rfl⟩

/-- C4 (code bug evidence): a `disconnect` event during a running
fade-back animation clears only the tick-scheduler timeout; the fade
interval survives it and its very next tick still calls
`light.setRGB(199, 199, 199)` on the disconnected device, and a pending
door debounce likewise survives a `disconnect`. -/
theorem c4_disconnect_leaves_door_timers :
    (step Ev.disconnectEv c4Start).1.tickTimeout = false ∧
    (step Ev.disconnectEv c4Start).1.doorFrameLoop = some ⟨200, 200, 200⟩ ∧
    Effect.setRGB 199 199 199 ∈ (step Ev.fadeTick (step Ev.disconnectEv c4Start).1).2 ∧
    (step Ev.disconnectEv c4Closed).1.dePending = true := by
  refine ⟨by decide, by decide, by decide, by decide⟩

/-- C5 (counterexample): `Door` is one of the eight `ControllerMode`
values, yet `setMode("Door")` is rejected — it falls through to the
`default` branch and throws. -/
theorem c5_door_rejected :
    modeToString Mode.door = "Door" ∧
    setModeStr "Door" sAuto = .error "Mode Door does not exist!" := by
  refine ⟨rfl, rfl⟩

/-- `parseMode` succeeds exactly on the seven case labels of `setMode`'s
switch. -/
theorem parseMode_isSome_iff (m : String) :
    (parseMode m).isSome ↔ m ∈ validModeStrings := by
  unfold parseMode validModeStrings
  split_ifs with h1 h2 h3 h4 h5 h6 h7
  · subst h1; decide
  · subst h2; decide
  · subst h3; decide
  · subst h4; decide
  · subst h5; decide
  · subst h6; decide
  · subst h7; decide
  · simp only [Option.isSome_none, Bool.false_eq_true, false_iff]
    intro hmem
    simp only [List.mem_cons, List.not_mem_nil, or_false] at hmem
    rcases hmem with rfl | rfl | rfl | rfl | rfl | rfl | rfl
    exacts [absurd rfl h1, absurd rfl h2, absurd rfl h3, absurd rfl h4,
      absurd rfl h5, absurd rfl h6, absurd rfl h7]

/-- C5 (amended): `setMode` accepts exactly the seven externally
selectable mode values — every `ControllerMode` except `Door`; for `Door`
and for any unknown value it fails synchronously with the descriptive
error `` `Mode ${mode} does not exist!` ``, thrown before any state is
touched, so the caller's observable state is unchanged. -/
theorem c5_setMode_accepts_exactly_non_door (m : String) (s : LHState) :
    ((∃ r, setModeStr m s = .ok r) ↔ m ∈ validModeStrings) ∧
    (m ∉ validModeStrings →
      setModeStr m s = .error ("Mode " ++ m ++ " does not exist!")) := by
  constructor
  · constructor
    · rintro ⟨r, hr⟩
      rw [← parseMode_isSome_iff]
      unfold setModeStr at hr
      cases hp : parseMode m with
      | some md => simp [hp]
      | none => rw [hp] at hr; exact absurd hr (by simp)
    · intro hm
      have hs : (parseMode m).isSome := (parseMode_isSome_iff m).2 hm
      unfold setModeStr
      cases hp : parseMode m with
      | some md => exact ⟨_, rfl⟩
      | none => rw [hp] at hs; exact absurd hs (by simp)
  · intro hm
    have hs : ¬(parseMode m).isSome := fun h =>
      hm ((parseMode_isSome_iff m).1 h)
    unfold setModeStr
    cases hp : parseMode m with
    | some md => rw [hp] at hs; simp at hs
    | none => rfl

/-- C5 witness: the amended theorem applied at the concrete rejected
value `"Door"`. -/
theorem c5_setMode_accepts_exactly_non_door_witness :
    ¬("Door" ∈ validModeStrings) ∧
    setModeStr "Door" sManual = .error ("Mode " ++ "Door" ++ " does not exist!") :=
  ⟨by decide,
   (c5_setMode_accepts_exactly_non_door "Door" sManual).2 (by decide)⟩

/-- C6: a frame whose processing time `diff = dateEnd - now` strictly
exceeds `SERVER_FPS` is non-fatal: the tick logs the
"Server is lagging!" warning, reschedules itself with delay 0, and the
scheduler timeout is pending again (the loop continues). -/
theorem c6_overrun_reschedules_immediately (pilot audioC : RGBc)
    (accept : Bool) (elapsed : Nat) (s : LHState)
    (h : elapsed > SERVER_FPS) :
    (tick pilot audioC accept elapsed s).nextDelay = 0 ∧
    Effect.log ∈ (tick pilot audioC accept elapsed s).effects ∧
    (tick pilot audioC accept elapsed s).state.tickTimeout = true := by
  unfold tick
  rw [if_pos h]
  refine ⟨rfl, ?_, rfl⟩
  simp

/-- C6 witness: concrete overrunning frame (`elapsed = 51 > 50`). -/
theorem c6_overrun_reschedules_immediately_witness :
    (51 : Nat) > SERVER_FPS ∧
    ((tick ⟨0, 0, 0⟩ ⟨0, 0, 0⟩ true 51 sManual).nextDelay = 0 ∧
      Effect.log ∈ (tick ⟨0, 0, 0⟩ ⟨0, 0, 0⟩ true 51 sManual).effects ∧
      (tick ⟨0, 0, 0⟩ ⟨0, 0, 0⟩ true 51 sManual).state.tickTimeout = true) :=
  ⟨by decide,
   c6_overrun_reschedules_immediately ⟨0, 0, 0⟩ ⟨0, 0, 0⟩ true 51 sManual (by decide)⟩

/-- C7: a door-open event on mode `ManualLocked` changes nothing and emits
nothing; on any other mode it cancels the pending door timers, sets the
mode to `Door`, immediately pushes full-bright white `(255, 255, 255)` to
the device and broadcasts the `Door` mode and the white color. -/
theorem c7_door_open_white_override (s : LHState) :
    doorEvent true s =
      if s.lightMode = Mode.manualLocked then (s, [])
      else
        ({ s with doorFrameLoop := none, dePending := false,
                  lightMode := Mode.door },
         [Effect.setRGB 255 255 255, Effect.broadcastMode Mode.door,
          Effect.broadcastRGB ⟨255, 255, 255⟩]) := by
  unfold doorEvent updateModeAndLight
  split
  · rfl
  · rfl

/-- A tick never touches the door timers or the mode: `tick`,
`isStateChanged` and `changeState` only write the color state and the
scheduler timeout. -/
theorem tick_preserves_timers (pilot audioC : RGBc) (accept : Bool)
    (elapsed : Nat) (s : LHState) :
    (tick pilot audioC accept elapsed s).state.doorFrameLoop = s.doorFrameLoop ∧
    (tick pilot audioC accept elapsed s).state.dePending = s.dePending ∧
    (tick pilot audioC accept elapsed s).state.lightMode = s.lightMode := by
  obtain ⟨lm, lastm, r0, l0, dfl, dep, tt⟩ := s
  cases lm <;>
    simp only [tick, isStateChanged, changeState] <;>
    split_ifs <;> simp

/-- A fade-interval tick with no running interval does nothing. -/
theorem fadeTick_noop (s : LHState) (h : s.doorFrameLoop = none) :
    step Ev.fadeTick s = (s, []) := by
  simp [step, h]

/-- Every event except the debounce firing preserves `InvClosed`. -/
theorem step_invClosed (e : Ev) (s : LHState) (he : e ≠ Ev.deFire)
    (h : InvClosed s) : InvClosed (step e s).1 := by
  obtain ⟨h1, h2⟩ := h
  cases e with
  | doorEv level =>
      by_cases hml : s.lightMode = Mode.manualLocked
      · simp only [step, doorEvent, if_pos hml]
        exact ⟨h1, h2⟩
      · cases level
        · simp only [step, doorEvent, if_neg hml, Bool.false_eq_true,
            reduceIte]
          exact ⟨rfl, fun _ => hml⟩
        · simp only [step, doorEvent, if_neg hml, reduceIte]
          exact ⟨rfl, fun hd => absurd hd Bool.false_ne_true⟩
  | deFire => exact absurd rfl he
  | fadeTick =>
      rw [fadeTick_noop s h1]
      exact ⟨h1, h2⟩
  | setModeEv m =>
      simp only [step, setModeStr]
      cases hp : parseMode m with
      | some md =>
          simp only [hp]
          exact ⟨rfl, fun hd => absurd hd Bool.false_ne_true⟩
      | none =>
          simp only [hp]
          exact ⟨h1, h2⟩
  | rgbSet isClient red green blue =>
      cases isClient <;>
        exact ⟨rfl, fun hd => absurd hd Bool.false_ne_true⟩
  | tickEv pilot audioC accept elapsed =>
      obtain ⟨ha, hb, hc⟩ := tick_preserves_timers pilot audioC accept elapsed s
      refine ⟨?_, fun hd => ?_⟩
      · show (tick pilot audioC accept elapsed s).state.doorFrameLoop = none
        rw [ha]; exact h1
      · show (tick pilot audioC accept elapsed s).state.lightMode ≠ Mode.manualLocked
        rw [hc]
        exact h2 (by rw [← hb]; exact hd)
  | connectEv => exact ⟨h1, h2⟩
  | disconnectEv => exact ⟨h1, h2⟩
  | allClientsDisc =>
      by_cases hml : s.lightMode = Mode.manual ∨ s.lightMode = Mode.manualForce
      · simp only [step, if_pos hml]
        exact ⟨rfl, fun hd => absurd hd Bool.false_ne_true⟩
      · simp only [step, if_neg hml]
        exact ⟨h1, h2⟩

/-- A door-open on a state satisfying `InvClosed` yields a state with no
fade interval and no pending debounce: either the mode is `ManualLocked`
(then the debounce cannot have been pending, by the invariant) or the
handler cancels the debounce itself. -/
theorem doorOpen_invOpened (s : LHState) (h : InvClosed s) :
    InvOpened (step (Ev.doorEv true) s).1 := by
  by_cases hml : s.lightMode = Mode.manualLocked
  · have hd : s.dePending = false := by
      cases hdp : s.dePending
      · rfl
      · exact absurd hml (h.2 hdp)
    simp only [step, doorEvent, if_pos hml]
    exact ⟨h.1, hd⟩
  · simp only [step, doorEvent, if_neg hml, reduceIte]
    exact ⟨rfl, rfl⟩

/-- Every event except a door-close preserves `InvOpened`. -/
theorem step_invOpened (e : Ev) (s : LHState) (he : e ≠ Ev.doorEv false)
    (h : InvOpened s) : InvOpened (step e s).1 := by
  obtain ⟨h1, h2⟩ := h
  cases e with
  | doorEv level =>
      cases level
      · exact absurd rfl he
      · by_cases hml : s.lightMode = Mode.manualLocked
        · simp only [step, doorEvent, if_pos hml]
          exact ⟨h1, h2⟩
        · simp only [step, doorEvent, if_neg hml, reduceIte]
          exact ⟨rfl, rfl⟩
  | deFire =>
      simp only [step, h2, Bool.false_eq_true, reduceIte]
      exact ⟨h1, h2⟩
  | fadeTick =>
      rw [fadeTick_noop s h1]
      exact ⟨h1, h2⟩
  | setModeEv m =>
      simp only [step, setModeStr]
      cases hp : parseMode m with
      | some md =>
          simp only [hp]
          exact ⟨rfl, rfl⟩
      | none =>
          simp only [hp]
          exact ⟨h1, h2⟩
  | rgbSet isClient red green blue =>
      cases isClient <;> exact ⟨rfl, rfl⟩
  | tickEv pilot audioC accept elapsed =>
      obtain ⟨ha, hb, _⟩ := tick_preserves_timers pilot audioC accept elapsed s
      refine ⟨?_, ?_⟩
      · show (tick pilot audioC accept elapsed s).state.doorFrameLoop = none
        rw [ha]; exact h1
      · show (tick pilot audioC accept elapsed s).state.dePending = false
        rw [hb]; exact h2
  | connectEv => exact ⟨h1, h2⟩
  | disconnectEv => exact ⟨h1, h2⟩
  | allClientsDisc =>
      by_cases hml : s.lightMode = Mode.manual ∨ s.lightMode = Mode.manualForce
      · simp only [step, if_pos hml]
        exact ⟨rfl, rfl⟩
      · simp only [step, if_neg hml]
        exact ⟨h1, h2⟩

/-- A predicate preserved by every allowed step holds at every state along
a trace of allowed events. -/
theorem statesOf_pred (P : LHState → Prop) (good : Ev → Prop)
    (hstep : ∀ e s, good e → P s → P (step e s).1) :
    ∀ (evs : List Ev) (s : LHState), (∀ e ∈ evs, good e) → P s →
      ∀ s' ∈ statesOf s evs, P s' := by
  intro evs
  induction evs with
  | nil =>
      intro s _ hP s' hs'
      simp only [statesOf, List.mem_singleton] at hs'
      subst hs'
      exact hP
  | cons e evs ih =>
      intro s hg hP s' hs'
      simp only [statesOf, List.mem_cons] at hs'
      rcases hs' with rfl | hs'
      · exact hP
      · exact ih (step e s).1
          (fun e' he' => hg e' (List.mem_cons_of_mem _ he'))
          (hstep e s (hg e (List.mem_cons_self _ _)) hP) s' hs'

/-- `runS` over a cons. -/
theorem runS_cons (s : LHState) (e : Ev) (evs : List Ev) :
    runS s (e :: evs) = runS (step e s).1 evs := rfl

/-- The final state of a trace is among its visited states. -/
theorem runS_mem_statesOf (evs : List Ev) :
    ∀ s : LHState, runS s evs ∈ statesOf s evs := by
  induction evs with
  | nil => intro s; simp [statesOf, runS]
  | cons e evs ih =>
      intro s
      show runS s (e :: evs) ∈ s :: statesOf (step e s).1 evs
      rw [runS_cons]
      exact List.mem_cons_of_mem _ (ih (step e s).1)

/-- Splitting the visited states of a concatenated trace. -/
theorem mem_statesOf_append (s' s : LHState) (l1 l2 : List Ev)
    (h : s' ∈ statesOf s (l1 ++ l2)) :
    s' ∈ statesOf s l1 ∨ s' ∈ statesOf (runS s l1) l2 := by
  induction l1 generalizing s with
  | nil => exact Or.inr (by simpa [statesOf, runS] using h)
  | cons e l1 ih =>
      rw [List.cons_append] at h
      rcases List.mem_cons.mp h with rfl | h
      · exact Or.inl (List.mem_cons_self _ _)
      · rcases ih (step e s).1 h with h' | h'
        · exact Or.inl (List.mem_cons_of_mem _ h')
        · exact Or.inr (by rwa [runS_cons])

/-- C8: starting from a state with no running fade interval and no pending
debounce, a door-close followed — possibly after further events, none of
them the debounce firing — by a door-open, and then any continuation
without another door-close, never starts the fade-back animation: at every
state along the whole trace the fade interval is absent, and a
fade-interval tick delivered at any of those states pushes nothing. -/
theorem c8_close_then_open_no_fade (s0 : LHState) (evs1 evs2 : List Ev)
    (h0 : s0.doorFrameLoop = none) (h0' : s0.dePending = false)
    (h1 : Ev.deFire ∉ evs1) (h2 : Ev.doorEv false ∉ evs2) :
    ∀ s' ∈ statesOf s0 (Ev.doorEv false :: (evs1 ++ Ev.doorEv true :: evs2)),
      s'.doorFrameLoop = none ∧ (step Ev.fadeTick s').2 = [] := by
  have hI0 : InvClosed s0 :=
    ⟨h0, fun hd => absurd (h0'.symm.trans hd) (by decide)⟩
  suffices hall : ∀ s' ∈ statesOf s0
      (Ev.doorEv false :: (evs1 ++ Ev.doorEv true :: evs2)),
      s'.doorFrameLoop = none by
    intro s' hs'
    have := hall s' hs'
    exact ⟨this, by rw [fadeTick_noop s' this]⟩
  intro s' hs'
  rcases List.mem_cons.mp hs' with rfl | hs'
  · exact h0
  · have hI1 : InvClosed (step (Ev.doorEv false) s0).1 :=
      step_invClosed _ s0 (by simp) hI0
    rcases mem_statesOf_append s' _ evs1 (Ev.doorEv true :: evs2) hs' with hm | hm
    · exact (statesOf_pred InvClosed (fun e => e ≠ Ev.deFire)
        step_invClosed evs1 _
        (fun e he heq => h1 (heq ▸ he)) hI1 s' hm).1
    · have hI2 : InvClosed (runS (step (Ev.doorEv false) s0).1 evs1) :=
        statesOf_pred InvClosed (fun e => e ≠ Ev.deFire)
          step_invClosed evs1 _
          (fun e he heq => h1 (heq ▸ he)) hI1 _
          (runS_mem_statesOf evs1 _)
      rcases List.mem_cons.mp hm with rfl | hm
      · exact hI2.1
      · have hO : InvOpened
            (step (Ev.doorEv true) (runS (step (Ev.doorEv false) s0).1 evs1)).1 :=
          doorOpen_invOpened _ hI2
        exact (statesOf_pred InvOpened (fun e => e ≠ Ev.doorEv false)
          step_invOpened evs2 _
          (fun e he heq => h2 (heq ▸ he)) hO s' hm).1

/-- C8 witness: the immediate close-then-open trace from a fresh
`AutoPilot` state. -/
theorem c8_close_then_open_no_fade_witness :
    sAuto.doorFrameLoop = none ∧ sAuto.dePending = false ∧
    Ev.deFire ∉ ([] : List Ev) ∧ Ev.doorEv false ∉ ([] : List Ev) ∧
    ∀ s' ∈ statesOf sAuto
      (Ev.doorEv false :: (([] : List Ev) ++ Ev.doorEv true :: ([] : List Ev))),
      s'.doorFrameLoop = none ∧ (step Ev.fadeTick s').2 = [] :=
  ⟨rfl, rfl, by simp, by simp,
   c8_close_then_open_no_fade sAuto [] [] rfl rfl (by simp) (by simp)⟩

/-- In every non-audio, non-`Door`, non-`AutoPilot` mode, `isStateChanged`
is the channelwise comparison of the target against the last-pushed color
and leaves the state untouched. -/
theorem isStateChanged_plain (pilot : RGBc) (s : LHState)
    (hm : s.lightMode = Mode.manual ∨ s.lightMode = Mode.pattern ∨
      s.lightMode = Mode.manualForce ∨ s.lightMode = Mode.manualLocked) :
    isStateChanged pilot s =
      (!decide (s.rgb.r = s.lastRGB.r ∧ s.rgb.b = s.lastRGB.b ∧
        s.rgb.g = s.lastRGB.g), s) := by
  obtain ⟨lm, lastm, r0, l0, dfl, dep, tt⟩ := s
  rcases hm with rfl | rfl | rfl | rfl <;> rfl

/-- Outside `Audio` mode, `changeState` copies the target into `lastRGB`,
pushes the target to the device and broadcasts it. -/
theorem changeState_plain (audioC : RGBc) (accept : Bool) (s : LHState)
    (hm : s.lightMode ≠ Mode.audioMode) :
    changeState audioC accept s =
      ({ s with lastRGB := s.rgb },
        [Effect.setRGB s.rgb.r s.rgb.g s.rgb.b, Effect.broadcastRGB s.rgb]) := by
  unfold changeState
  rw [if_neg hm]

/-- The state produced by a tick, independent of the lag branch. -/
theorem tick_state_eq (pilot audioC : RGBc) (accept : Bool) (elapsed : Nat)
    (s : LHState) :
    (tick pilot audioC accept elapsed s).state =
      { (if (isStateChanged pilot s).1 then
          changeState audioC accept (isStateChanged pilot s).2
        else ((isStateChanged pilot s).2, [])).1 with tickTimeout := true } := by
  unfold tick
  dsimp only
  split_ifs <;> rfl

/-- The effects produced by a tick: the change-state effects, followed by
the lag warning when the frame overran. -/
theorem tick_effects_eq (pilot audioC : RGBc) (accept : Bool) (elapsed : Nat)
    (s : LHState) :
    (tick pilot audioC accept elapsed s).effects =
      (if (isStateChanged pilot s).1 then
        changeState audioC accept (isStateChanged pilot s).2
      else ((isStateChanged pilot s).2, [])).2 ++
      (if elapsed > SERVER_FPS then [Effect.log] else []) := by
  unfold tick
  dsimp only
  split_ifs <;> simp

/-- `setRGBCalls` distributes over concatenation. -/
theorem setRGBCalls_append (l1 l2 : List Effect) :
    setRGBCalls (l1 ++ l2) = setRGBCalls l1 ++ setRGBCalls l2 := by
  simp [setRGBCalls]

/-- The lag warning contributes no device push. -/
theorem setRGBCalls_lag (c : Prop) [Decidable c] :
    setRGBCalls (if c then [Effect.log] else []) = [] := by
  split_ifs <;> rfl

/-- C9: in the modes `Manual`, `Pattern`, `ManualForce`, `ManualLocked`, a
tick reports a change exactly when some channel of the target color
differs from the last-pushed color; on a change the tick pushes the target
to the device, broadcasts it, and makes it the new last-pushed color (the
target itself is untouched); with no change the tick pushes nothing; and
an immediately following tick with the target unchanged never pushes. -/
theorem c9_change_detection (s : LHState) (pilot audioC pilot2 audioC2 : RGBc)
    (accept accept2 : Bool) (e1 e2 : Nat)
    (hm : s.lightMode = Mode.manual ∨ s.lightMode = Mode.pattern ∨
      s.lightMode = Mode.manualForce ∨ s.lightMode = Mode.manualLocked) :
    ((isStateChanged pilot s).1 = true ↔
      ¬(s.rgb.r = s.lastRGB.r ∧ s.rgb.g = s.lastRGB.g ∧ s.rgb.b = s.lastRGB.b)) ∧
    ((isStateChanged pilot s).1 = true →
      (tick pilot audioC accept e1 s).state.lastRGB = s.rgb ∧
      (tick pilot audioC accept e1 s).state.rgb = s.rgb ∧
      Effect.setRGB s.rgb.r s.rgb.g s.rgb.b ∈ (tick pilot audioC accept e1 s).effects ∧
      Effect.broadcastRGB s.rgb ∈ (tick pilot audioC accept e1 s).effects) ∧
    ((isStateChanged pilot s).1 = false →
      setRGBCalls (tick pilot audioC accept e1 s).effects = []) ∧
    setRGBCalls
      (tick pilot2 audioC2 accept2 e2 (tick pilot audioC accept e1 s).state).effects = [] := by
  have hnA : s.lightMode ≠ Mode.audioMode := by
    rcases hm with h | h | h | h <;> simp [h]
  have hfst : (isStateChanged pilot s).1 =
      !decide (s.rgb.r = s.lastRGB.r ∧ s.rgb.b = s.lastRGB.b ∧
        s.rgb.g = s.lastRGB.g) := by
    rw [isStateChanged_plain pilot s hm]
  have hsnd : (isStateChanged pilot s).2 = s := by
    rw [isStateChanged_plain pilot s hm]
  have hmode : (tick pilot audioC accept e1 s).state.lightMode = s.lightMode :=
    (tick_preserves_timers pilot audioC accept e1 s).2.2
  have hm2 : (tick pilot audioC accept e1 s).state.lightMode = Mode.manual ∨
      (tick pilot audioC accept e1 s).state.lightMode = Mode.pattern ∨
      (tick pilot audioC accept e1 s).state.lightMode = Mode.manualForce ∨
      (tick pilot audioC accept e1 s).state.lightMode = Mode.manualLocked := by
    rw [hmode]; exact hm
  refine ⟨?_, ?_, ?_, ?_⟩
  · rw [hfst]
    simp only [Bool.not_eq_true', decide_eq_false_iff_not]
    exact not_congr ⟨fun ⟨a, b, c⟩ => ⟨a, c, b⟩, fun ⟨a, b, c⟩ => ⟨a, c, b⟩⟩
  · intro hch
    rw [tick_state_eq, tick_effects_eq, if_pos hch, hsnd,
      changeState_plain audioC accept s hnA]
    exact ⟨rfl, rfl, by simp, by simp⟩
  · intro hch
    rw [tick_effects_eq, if_neg (by rw [hch]; exact Bool.false_ne_true), hsnd,
      setRGBCalls_append, setRGBCalls_lag]
    rfl
  · rw [tick_effects_eq pilot2 audioC2 accept2 e2 _, setRGBCalls_append,
      setRGBCalls_lag]
    have hfst2 : (isStateChanged pilot2 (tick pilot audioC accept e1 s).state).1 = false := by
      cases hch : (isStateChanged pilot s).1 with
      | true =>
          have hst : (tick pilot audioC accept e1 s).state =
              { s with lastRGB := s.rgb, tickTimeout := true } := by
            rw [tick_state_eq, if_pos hch, hsnd,
              changeState_plain audioC accept s hnA]
          rw [isStateChanged_plain pilot2 _ hm2, hst]
          simp
      | false =>
          have hP : s.rgb.r = s.lastRGB.r ∧ s.rgb.b = s.lastRGB.b ∧
              s.rgb.g = s.lastRGB.g := by
            rw [hfst] at hch
            simpa using hch
          have hst : (tick pilot audioC accept e1 s).state =
              { s with tickTimeout := true } := by
            rw [tick_state_eq, if_neg (by rw [hch]; exact Bool.false_ne_true), hsnd]
          rw [isStateChanged_plain pilot2 _ hm2, hst]
          simp [hP.1, hP.2.1, hP.2.2]
    rw [if_neg (by rw [hfst2]; exact Bool.false_ne_true)]
    rfl

/-- C9 witness: mode `Manual` with target `(10, 20, 30)` against
last-pushed `(255, 255, 255)`: the tick pushes `(10, 20, 30)` once and a
second tick pushes nothing. -/
theorem c9_change_detection_witness :
    (sManual10.lightMode = Mode.manual ∨ sManual10.lightMode = Mode.pattern ∨
      sManual10.lightMode = Mode.manualForce ∨ sManual10.lightMode = Mode.manualLocked) ∧
    (((isStateChanged ⟨0, 0, 0⟩ sManual10).1 = true ↔
      ¬(sManual10.rgb.r = sManual10.lastRGB.r ∧ sManual10.rgb.g = sManual10.lastRGB.g ∧
        sManual10.rgb.b = sManual10.lastRGB.b)) ∧
    ((isStateChanged ⟨0, 0, 0⟩ sManual10).1 = true →
      (tick ⟨0, 0, 0⟩ ⟨0, 0, 0⟩ true 1 sManual10).state.lastRGB = sManual10.rgb ∧
      (tick ⟨0, 0, 0⟩ ⟨0, 0, 0⟩ true 1 sManual10).state.rgb = sManual10.rgb ∧
      Effect.setRGB sManual10.rgb.r sManual10.rgb.g sManual10.rgb.b ∈
        (tick ⟨0, 0, 0⟩ ⟨0, 0, 0⟩ true 1 sManual10).effects ∧
      Effect.broadcastRGB sManual10.rgb ∈
        (tick ⟨0, 0, 0⟩ ⟨0, 0, 0⟩ true 1 sManual10).effects) ∧
    ((isStateChanged ⟨0, 0, 0⟩ sManual10).1 = false →
      setRGBCalls (tick ⟨0, 0, 0⟩ ⟨0, 0, 0⟩ true 1 sManual10).effects = []) ∧
    setRGBCalls
      (tick ⟨0, 0, 0⟩ ⟨0, 0, 0⟩ true 1
        (tick ⟨0, 0, 0⟩ ⟨0, 0, 0⟩ true 1 sManual10).state).effects = []) :=
  ⟨Or.inl rfl,
   c9_change_detection sManual10 ⟨0, 0, 0⟩ ⟨0, 0, 0⟩ ⟨0, 0, 0⟩ ⟨0, 0, 0⟩
     true true 1 1 (Or.inl rfl)⟩

/-- C10: at construction the target color is `(0, 0, 0)` and the
last-pushed color `(255, 255, 255)`; hence if the startup mode is
`Manual`, `Pattern`, `ManualForce` or `ManualLocked`, the first tick after
the connect sequence reports a change and pushes black `(0, 0, 0)` to the
device and broadcasts it to listeners, with no client having set any
color. -/
theorem c10_first_tick_pushes_black (m : Mode) (pilot audioC : RGBc)
    (accept : Bool) (el : Nat)
    (hm : m = Mode.manual ∨ m = Mode.pattern ∨ m = Mode.manualForce ∨
      m = Mode.manualLocked) :
    (initState m).rgb = ⟨0, 0, 0⟩ ∧
    (initState m).lastRGB = ⟨255, 255, 255⟩ ∧
    (isStateChanged pilot (onConnect (initState m)).1).1 = true ∧
    Effect.setRGB 0 0 0 ∈
      (tick pilot audioC accept el (onConnect (initState m)).1).effects ∧
    Effect.broadcastRGB ⟨0, 0, 0⟩ ∈
      (tick pilot audioC accept el (onConnect (initState m)).1).effects := by
  rcases hm with rfl | rfl | rfl | rfl <;>
  · refine ⟨rfl, rfl, rfl, ?_, ?_⟩ <;>
    · simp only [tick, isStateChanged, changeState, onConnect, initState]
      split_ifs <;> simp_all

/-- C10 witness: startup mode `Manual`, non-overrunning first frame. -/
theorem c10_first_tick_pushes_black_witness :
    (Mode.manual = Mode.manual ∨ Mode.manual = Mode.pattern ∨
      Mode.manual = Mode.manualForce ∨ Mode.manual = Mode.manualLocked) ∧
    ((initState Mode.manual).rgb = ⟨0, 0, 0⟩ ∧
    (initState Mode.manual).lastRGB = ⟨255, 255, 255⟩ ∧
    (isStateChanged ⟨0, 0, 0⟩ (onConnect (initState Mode.manual)).1).1 = true ∧
    Effect.setRGB 0 0 0 ∈
      (tick ⟨0, 0, 0⟩ ⟨0, 0, 0⟩ true 0 (onConnect (initState Mode.manual)).1).effects ∧
    Effect.broadcastRGB ⟨0, 0, 0⟩ ∈
      (tick ⟨0, 0, 0⟩ ⟨0, 0, 0⟩ true 0 (onConnect (initState Mode.manual)).1).effects) :=
  ⟨Or.inl rfl,
   c10_first_tick_pushes_black Mode.manual ⟨0, 0, 0⟩ ⟨0, 0, 0⟩ true 0 (Or.inl rfl)⟩

end LightHandler
